import Mathlib

/-!
Verification development for the Gesundheitswächter failover selector
(src/app.py): a shallow embedding of the endpoint registry, the health
prober, the priority-based evaluator, the webhook notifier, the poller
loop control and the status-query handler, together with theorems that
settle the specified properties of each operation.
-/

namespace Gesundheitswaechter

/-- One monitored target, as built at startup from the comma-separated
URL list: a URL string, a 1-based priority (lower is preferred) and the
mutable health flag.  The bookkeeping field last_checked (a timestamp
string) plays no role in any selection or query logic and is omitted. -/
structure Endpoint where
  url : String
  priority : Nat
  healthy : Bool
deriving Repr, DecidableEq

/-- The shared selection state current_healthy_url_info: an optional URL
and a priority where the Python value float('inf') is modelled as none
(the sentinel that compares worse than any real priority). -/
structure Selection where
  url : Option String
  priority : Option Nat
deriving Repr, DecidableEq

/-- The startup value of current_healthy_url_info:
url = None, priority = float('inf'). -/
def initial_healthy_url_info : Selection := ⟨none, none⟩

/-- Python truthiness of an optional string: None and the empty string
are falsy, every other string is truthy. -/
def truthyOptStr : Option String → Bool
  | none => false
  | some s => !(s == "")

/-- The observable outcome of one HTTP GET issued by check_url_health:
either a response with a status code arrives, or the request raises a
timeout, another requests-library exception, or an unexpected exception. -/
inductive ProbeOutcome where
  | response (status : Nat)
  | timeout
  | requestException (msg : String)
  | otherException (msg : String)
deriving Repr, DecidableEq

/-- The classification computed by check_url_health: the health verdict
together with the error_message diagnostic (none on success). -/
structure ProbeResult where
  is_currently_healthy : Bool
  error_message : Option String
deriving Repr, DecidableEq

/-- Embedding of check_url_health (src/app.py lines 64-92) as a function
of the transport outcome.  Every exception branch of the Python code is a
constructor of ProbeOutcome, so totality of this function models the fact
that the probe never propagates an exception to its caller. -/
def check_url_health (o : ProbeOutcome) : ProbeResult :=
  match o with
  | .response s =>
      if 200 ≤ s ∧ s < 300 then ⟨true, none⟩
      else ⟨false, some ("HTTP " ++ toString s)⟩
  | .timeout => ⟨false, some "Timeout"⟩
  | .requestException m => ⟨false, some ("RequestException: " ++ m)⟩
  | .otherException m => ⟨false, some ("Unexpected error: " ++ m)⟩

/-- Stable insertion of an endpoint into a priority-sorted list;
auxiliary step of the embedding of sorted(URLS_WITH_PRIORITY,
key = priority) used at src/app.py line 114. -/
def insert_by_priority (e : Endpoint) : List Endpoint → List Endpoint
  | [] => [e]
  | f :: fs =>
      if e.priority ≤ f.priority then e :: f :: fs
      else f :: insert_by_priority e fs

/-- Stable sort of the registry by ascending priority, the sorted_urls
list of update_overall_health_status. -/
def sorted_by_priority : List Endpoint → List Endpoint
  | [] => []
  | e :: es => insert_by_priority e (sorted_by_priority es)

/-- Comparison of a priority against highest_priority_so_far, where none
models the initial float('inf'). -/
def ltInf (n : Nat) : Option Nat → Bool
  | none => true
  | some m => n < m

/-- Embedding of the scan loop of update_overall_health_status
(src/app.py lines 116-123): walk the sorted list; on the first healthy
endpoint whose priority beats highest_priority_so_far, record its url and
priority and break. -/
def selectLoop (hp : Option Nat) (u : Option String) :
    List Endpoint → Option String × Option Nat
  | [] => (u, hp)
  | e :: rest =>
      if e.healthy then
        if ltInf e.priority hp then (some e.url, some e.priority)
        else selectLoop hp u rest
      else selectLoop hp u rest

/-- The pair (new_highest_priority_healthy_url, highest_priority_so_far)
computed by update_overall_health_status from the registry. -/
def compute_highest_priority_healthy (registry : List Endpoint) :
    Option String × Option Nat :=
  selectLoop none none (sorted_by_priority registry)

/-- The payload fields of one webhook call made by the evaluator (the
timestamp and message strings carry no selection logic). -/
structure WebhookNotification where
  previous_healthy_url : Option String
  current_healthy_url : Option String
  current_healthy_url_priority : Option Nat
deriving Repr, DecidableEq

/-- The outcome of one evaluator run: the new stored selection, whether
the primary changed (the comparison old_healthy_url versus the new value,
which drives the log branches), and the webhook call issued, if any. -/
structure EvalResult where
  selection : Selection
  changed : Bool
  notification : Option WebhookNotification
deriving Repr, DecidableEq

/-- Embedding of update_overall_health_status (src/app.py lines 94-144).
The Boolean webhookConfigured models the truthiness of WEBHOOK_URL; prev
is the stored current_healthy_url_info read at entry.  Note the Python
guard on the scan result is truthiness, so an empty-string URL takes the
no-healthy branch. -/
def update_overall_health_status (webhookConfigured : Bool) (prev : Selection)
    (registry : List Endpoint) : EvalResult :=
  if truthyOptStr (compute_highest_priority_healthy registry).1 then
    { selection := ⟨(compute_highest_priority_healthy registry).1,
                    (compute_highest_priority_healthy registry).2⟩
      changed := decide (prev.url ≠ (compute_highest_priority_healthy registry).1)
      notification :=
        if prev.url ≠ (compute_highest_priority_healthy registry).1 ∧
            webhookConfigured = true then
          some ⟨prev.url, (compute_highest_priority_healthy registry).1,
                (compute_highest_priority_healthy registry).2⟩
        else none }
  else
    { selection := ⟨none, none⟩
      changed := decide (prev.url ≠ none)
      notification :=
        if prev.url ≠ (none : Option String) ∧ webhookConfigured = true then
          some ⟨prev.url, none, none⟩
        else none }

/-- The observable outcome of the requests.post call inside
send_webhook_notification: a response with a final status code, a
transport-level requests exception, or an unexpected exception. -/
inductive WebhookOutcome where
  | response (status : Nat)
  | transportError (msg : String)
  | otherException (msg : String)
deriving Repr, DecidableEq

/-- The two exception classes distinguished by the handlers of
send_webhook_notification: requests.exceptions.RequestException and any
other Exception. -/
inductive PyExc where
  | requestException (msg : String)
  | otherExc (msg : String)
deriving Repr, DecidableEq

/-- The post plus raise_for_status step of send_webhook_notification:
raise_for_status raises an HTTPError (a RequestException) exactly for
status codes 400-599; a transport error raises a RequestException; any
other failure raises a plain Exception. -/
def webhook_post_attempt : WebhookOutcome → Except PyExc Nat
  | .response s =>
      if 400 ≤ s ∧ s < 600 then .error (.requestException ("HTTP " ++ toString s))
      else .ok s
  | .transportError m => .error (.requestException m)
  | .otherException m => .error (.otherExc m)

/-- What send_webhook_notification logs on return. -/
inductive NotifyLog where
  | skippedNoWebhook
  | sentSuccessfully (status : Nat)
  | failedRequest (msg : String)
  | unexpectedError (msg : String)
deriving Repr, DecidableEq

/-- The observable result of one send_webhook_notification call: what was
logged and how many delivery attempts were made. -/
structure NotifyResult where
  log : NotifyLog
  attempts : Nat
deriving Repr, DecidableEq

/-- Embedding of send_webhook_notification (src/app.py lines 146-175).
Both except handlers swallow the exception after logging, so the function
is total: no outcome propagates an exception back to the evaluator. -/
def send_webhook_notification (webhookUrl : Option String)
    (oc : WebhookOutcome) : NotifyResult :=
  if truthyOptStr webhookUrl then
    match webhook_post_attempt oc with
    | .ok s => ⟨.sentSuccessfully s, 1⟩
    | .error (.requestException m) => ⟨.failedRequest m, 1⟩
    | .error (.otherExc m) => ⟨.unexpectedError m, 1⟩
  else ⟨.skippedNoWebhook, 0⟩

/-- Whether a notifier log entry records a delivery failure. -/
def isFailureLog : NotifyLog → Bool
  | .failedRequest _ => true
  | .unexpectedError _ => true
  | _ => false

/-- What the perform_health_checks thread does at entry (src/app.py
lines 180-182): with an empty registry it logs and returns without ever
entering the while loop; otherwise it enters the loop. -/
inductive PollerEntry where
  | returnWithoutLoop
  | enterLoop
deriving Repr, DecidableEq

/-- Embedding of the entry guard of perform_health_checks. -/
def perform_health_checks_entry (registry : List Endpoint) : PollerEntry :=
  if registry.isEmpty then .returnWithoutLoop else .enterLoop

/-- What one iteration of the while loop does after its own empty-registry
re-check (src/app.py lines 190-193): sleep and continue without probing,
or probe every endpoint and then evaluate. -/
inductive CycleAction where
  | sleepWithoutProbing
  | probeAllThenEvaluate
deriving Repr, DecidableEq

/-- Embedding of the in-loop empty-registry guard of
perform_health_checks. -/
def poller_cycle_guard (registry : List Endpoint) : CycleAction :=
  if registry.isEmpty then .sleepWithoutProbing else .probeAllThenEvaluate

/-- Embedding of the probe phase of one poller cycle (src/app.py lines
196-199): every endpoint, in registry order, has its healthy flag
replaced by the verdict of check_url_health on that endpoint's transport
outcome (oc i is the outcome of the probe of the endpoint at index i;
the counter starts at n). -/
def probe_all (oc : Nat → ProbeOutcome) : Nat → List Endpoint → List Endpoint
  | _, [] => []
  | i, e :: rest =>
      { e with healthy := (check_url_health (oc i)).is_currently_healthy } ::
        probe_all oc (i + 1) rest

/-- What the while loop of perform_health_checks does after the body of
one iteration finishes, normally or by raising. -/
inductive LoopDisposition where
  | sleepThenContinue
  | terminateLoop
deriving Repr, DecidableEq

/-- Embedding of the try/except boundary of the while loop (src/app.py
lines 186-213): a normal body run ends in the sleep of line 205 and the
loop continues; a raised exception is caught at line 208, logged, the
thread sleeps (line 213) and the loop continues.  Neither case leaves the
loop. -/
def poller_iteration_disposition : Except String Unit → LoopDisposition
  | .ok _ => .sleepThenContinue
  | .error _ => .sleepThenContinue

/-- The JSON body returned by the status routes: either the success body
with its healthy_url field, or the all-down body with its status and
message fields. -/
inductive StatusResponse where
  | healthyUrl (healthy_url : String)
  | down (status message : String)
deriving Repr, DecidableEq

/-- Embedding of get_healthy_endpoint (src/app.py lines 216-224):
truthiness of the stored url decides between the 200 success body and the
503 all-down body, so both None and the empty string take the 503 branch. -/
def get_healthy_endpoint (sel : Selection) : StatusResponse × Nat :=
  match sel.url with
  | some u =>
      if u = "" then (.down "all_endpoints_down" "No healthy endpoints available.", 503)
      else (.healthyUrl u, 200)
  | none => (.down "all_endpoints_down" "No healthy endpoints available.", 503)

/-- The selection states the running system can hold: the startup value,
or the value stored by some evaluator run. -/
def ReachableSel (sel : Selection) : Prop :=
  sel = initial_healthy_url_info ∨
    ∃ w prev registry, sel = (update_overall_health_status w prev registry).selection

/-! Helper lemmas about the sort and the scan loop. -/

theorem insert_by_priority_perm (e : Endpoint) (l : List Endpoint) :
    List.Perm (insert_by_priority e l) (e :: l) := by
  induction l with
  | nil => exact List.Perm.refl _
  | cons f fs ih =>
      by_cases h : e.priority ≤ f.priority
      · simp [insert_by_priority, h]
      · simp only [insert_by_priority, if_neg h]
        exact (ih.cons f).trans (List.Perm.swap e f fs)

theorem sorted_by_priority_perm (l : List Endpoint) :
    List.Perm (sorted_by_priority l) l := by
  induction l with
  | nil => exact List.Perm.refl _
  | cons e es ih => exact (insert_by_priority_perm e (sorted_by_priority es)).trans (ih.cons e)

theorem mem_sorted_by_priority {a : Endpoint} {l : List Endpoint} :
    a ∈ sorted_by_priority l ↔ a ∈ l :=
  (sorted_by_priority_perm l).mem_iff

theorem pairwise_insert_by_priority {e : Endpoint} {l : List Endpoint}
    (h : List.Pairwise (fun a b => a.priority ≤ b.priority) l) :
    List.Pairwise (fun a b => a.priority ≤ b.priority) (insert_by_priority e l) := by
  induction l with
  | nil => simp [insert_by_priority]
  | cons f fs ih =>
      rcases List.pairwise_cons.mp h with ⟨hf, hfs⟩
      by_cases hle : e.priority ≤ f.priority
      · simp only [insert_by_priority, if_pos hle]
        refine List.pairwise_cons.mpr ⟨?_, h⟩
        intro b hb
        rcases List.mem_cons.mp hb with rfl | hb2
        · exact hle
        · exact le_trans hle (hf b hb2)
      · simp only [insert_by_priority, if_neg hle]
        refine List.pairwise_cons.mpr ⟨?_, ih hfs⟩
        intro b hb
        rcases List.mem_cons.mp ((insert_by_priority_perm e fs).mem_iff.mp hb) with rfl | hb3
        · exact le_of_not_le hle
        · exact hf b hb3

theorem pairwise_sorted_by_priority (l : List Endpoint) :
    List.Pairwise (fun a b => a.priority ≤ b.priority) (sorted_by_priority l) := by
  induction l with
  | nil => exact List.Pairwise.nil
  | cons e es ih => exact pairwise_insert_by_priority ih

theorem selectLoop_eq_find (l : List Endpoint) :
    selectLoop none none l =
      match l.find? (fun e => e.healthy) with
      | some f => (some f.url, some f.priority)
      | none => (none, none) := by
  induction l with
  | nil => rfl
  | cons e rest ih =>
      cases hh : e.healthy with
      | true =>
          rw [List.find?_cons_of_pos _ (by simp [hh])]
          simp [selectLoop, hh, ltInf]
      | false =>
          rw [List.find?_cons_of_neg _ (by simp [hh])]
          simpa [selectLoop, hh] using ih

theorem find_first_healthy_min {l : List Endpoint} {f : Endpoint}
    (hs : List.Pairwise (fun a b => a.priority ≤ b.priority) l)
    (hf : l.find? (fun e => e.healthy) = some f) :
    ∀ e ∈ l, e.healthy = true → f.priority ≤ e.priority := by
  induction l with
  | nil => simp at hf
  | cons a rest ih =>
      rcases List.pairwise_cons.mp hs with ⟨ha, hrest⟩
      cases hh : a.healthy with
      | true =>
          rw [List.find?_cons_of_pos _ (by simp [hh])] at hf
          injection hf with hf
          subst hf
          intro e he _
          rcases List.mem_cons.mp he with rfl | he2
          · exact Nat.le_refl _
          · exact ha e he2
      | false =>
          rw [List.find?_cons_of_neg _ (by simp [hh])] at hf
          intro e he hhe
          rcases List.mem_cons.mp he with rfl | he2
          · rw [hh] at hhe; exact absurd hhe (by simp)
          · exact ih hrest hf e he2 hhe

/-- Case analysis of the scan result: either no endpoint is healthy and
the scan yields (none, none), or it yields the url and priority of a
healthy registry member of minimal priority among the healthy ones. -/
theorem compute_highest_priority_healthy_spec (registry : List Endpoint) :
    (compute_highest_priority_healthy registry = (none, none) ∧
      ∀ e ∈ registry, e.healthy = false) ∨
    (∃ f, f ∈ registry ∧ f.healthy = true ∧
      compute_highest_priority_healthy registry = (some f.url, some f.priority) ∧
      ∀ e ∈ registry, e.healthy = true → f.priority ≤ e.priority) := by
  have hchar := selectLoop_eq_find (sorted_by_priority registry)
  cases hfind : (sorted_by_priority registry).find? (fun e => e.healthy) with
  | none =>
      left
      constructor
      · rw [compute_highest_priority_healthy, hchar, hfind]
      · intro e he
        have := List.find?_eq_none.mp hfind e (mem_sorted_by_priority.mpr he)
        simpa using this
  | some f =>
      right
      refine ⟨f, ?_, ?_, ?_, ?_⟩
      · exact mem_sorted_by_priority.mp (List.mem_of_find?_eq_some hfind)
      · simpa using List.find?_some hfind
      · rw [compute_highest_priority_healthy, hchar, hfind]
      · intro e he hhe
        exact find_first_healthy_min (pairwise_sorted_by_priority registry) hfind e
          (mem_sorted_by_priority.mpr he) hhe

/-- The stored selection of an evaluator run never holds the empty
string: the truthy branch guards against it and the other branch stores
none. -/
theorem eval_selection_url_ne_empty (w : Bool) (prev : Selection)
    (registry : List Endpoint) {u : String}
    (h : (update_overall_health_status w prev registry).selection.url = some u) :
    u ≠ "" := by
  unfold update_overall_health_status at h
  by_cases ht : truthyOptStr (compute_highest_priority_healthy registry).1 = true
  · rw [if_pos ht] at h
    simp only at h
    rw [h] at ht
    simp [truthyOptStr] at ht
    intro hu
    exact ht hu
  · rw [if_neg ht] at h
    simp at h

theorem probe_all_length (oc : Nat → ProbeOutcome) (l : List Endpoint) :
    ∀ n, (probe_all oc n l).length = l.length := by
  induction l with
  | nil => intro n; rfl
  | cons e rest ih => intro n; simpa [probe_all] using ih (n + 1)

theorem probe_all_getElem? (oc : Nat → ProbeOutcome) (l : List Endpoint) :
    ∀ n i, (probe_all oc n l)[i]? =
      (l[i]?).map (fun e : Endpoint =>
        { e with healthy := (check_url_health (oc (n + i))).is_currently_healthy }) := by
  induction l with
  | nil => intro n i; simp [probe_all]
  | cons e rest ih =>
      intro n i
      cases i with
      | zero => simp [probe_all]
      | succ j =>
          simp only [probe_all, List.getElem?_cons_succ]
          rw [ih (n + 1) j, show n + 1 + j = n + (j + 1) from by omega]

/-- C3: check_url_health classifies the endpoint healthy exactly when the
HTTP response status lies in [200, 300); every transport failure and
every status outside that range yields unhealthy together with a
human-readable detail string (the verdict is false exactly when a detail
is present), and the function is total over every probe outcome, so the
probe never propagates an exception to its caller. -/
theorem C3_probe_classification (o : ProbeOutcome) :
    ((check_url_health o).is_currently_healthy = true ↔
      ∃ s, o = .response s ∧ 200 ≤ s ∧ s < 300) ∧
    ((check_url_health o).is_currently_healthy = false ↔
      (check_url_health o).error_message.isSome = true) := by
  cases o with
  | response s =>
      by_cases h : 200 ≤ s ∧ s < 300
      · simp [check_url_health, h]
      · simp [check_url_health, h]
  | timeout => simp [check_url_health]
  | requestException m => simp [check_url_health]
  | otherException m => simp [check_url_health]

/-- C2: one evaluator run issues a webhook call exactly when a webhook
target is configured and the stored selection address changes, and the
call carries the previous and new stored addresses and the new priority;
in particular the first-acquisition and lost-all-health transitions fire,
and an unchanged address (including none to none) never fires. -/
theorem C2_notification_iff_selection_changed (w : Bool) (prev : Selection)
    (registry : List Endpoint) :
    (update_overall_health_status w prev registry).notification =
      (if prev.url ≠ (update_overall_health_status w prev registry).selection.url ∧
          w = true then
        some ⟨prev.url, (update_overall_health_status w prev registry).selection.url,
              (update_overall_health_status w prev registry).selection.priority⟩
      else none) := by
  unfold update_overall_health_status
  by_cases ht : truthyOptStr (compute_highest_priority_healthy registry).1 = true
  · simp [ht]
  · simp [ht]

/-- C8: running the evaluator a second time with unchanged health flags
reports no change, issues no notification, and leaves the stored
selection exactly as the first run left it. -/
theorem C8_evaluator_idempotent (w : Bool) (prev : Selection)
    (registry : List Endpoint) :
    (update_overall_health_status w
        (update_overall_health_status w prev registry).selection registry).changed = false ∧
    (update_overall_health_status w
        (update_overall_health_status w prev registry).selection registry).notification =
      none ∧
    (update_overall_health_status w
        (update_overall_health_status w prev registry).selection registry).selection =
      (update_overall_health_status w prev registry).selection := by
  unfold update_overall_health_status
  by_cases ht : truthyOptStr (compute_highest_priority_healthy registry).1 = true
  · simp [ht]
  · simp [ht]

/-- C5: one poller cycle processes every endpoint — the probe phase
preserves the registry length and rewrites each endpoint's healthy flag
to the verdict of its own probe — every exceptional probe outcome is
recorded as unhealthy with an error detail rather than raised, and the
loop boundary maps both a normal and a raising body run to a sleep
followed by another iteration, never to termination. -/
theorem C5_cycle_survives_probe_errors (oc : Nat → ProbeOutcome)
    (registry : List Endpoint) :
    (probe_all oc 0 registry).length = registry.length ∧
    (∀ i : Nat, (probe_all oc 0 registry)[i]? =
      (registry[i]?).map (fun e : Endpoint =>
        { e with healthy := (check_url_health (oc i)).is_currently_healthy })) ∧
    check_url_health .timeout = ⟨false, some "Timeout"⟩ ∧
    (∀ m, check_url_health (.requestException m) =
      ⟨false, some ("RequestException: " ++ m)⟩) ∧
    (∀ m, check_url_health (.otherException m) =
      ⟨false, some ("Unexpected error: " ++ m)⟩) ∧
    (∀ b : Except String Unit, poller_iteration_disposition b = .sleepThenContinue) ∧
    LoopDisposition.sleepThenContinue ≠ LoopDisposition.terminateLoop := by
  refine ⟨probe_all_length oc registry 0, ?_, rfl, fun m => rfl, fun m => rfl,
    ?_, by decide⟩
  · intro i
    simpa using probe_all_getElem? oc registry 0 i
  · intro b
    cases b <;> rfl

/-- C4 counterexample: with an empty registry, the polling thread takes
the early return of perform_health_checks and never enters the while
loop, so it does not sleep once per cycle as the claim states. -/
theorem C4_counterexample :
    perform_health_checks_entry [] = PollerEntry.returnWithoutLoop ∧
    PollerEntry.returnWithoutLoop ≠ PollerEntry.enterLoop := by
  exact ⟨rfl, by decide⟩

/-- C4 (amended): with an empty registry the Status Query always returns
the all-endpoints-down response and the Selection remains the none
sentinel; the poller performs no probes and never raises, but it does so
by returning at thread start without entering the loop (the in-loop
empty-registry branch, which would sleep and continue, is unreachable),
and even an evaluator run over the empty registry stores the none
sentinel. -/
theorem C4_empty_registry_behavior :
    perform_health_checks_entry [] = PollerEntry.returnWithoutLoop ∧
    poller_cycle_guard [] = CycleAction.sleepWithoutProbing ∧
    initial_healthy_url_info.url = none ∧
    get_healthy_endpoint initial_healthy_url_info =
      (StatusResponse.down "all_endpoints_down" "No healthy endpoints available.", 503) ∧
    (∀ w prev, (update_overall_health_status w prev []).selection = ⟨none, none⟩) ∧
    (∀ oc n, probe_all oc n [] = []) := by
  refine ⟨rfl, rfl, rfl, rfl, ?_, fun oc n => rfl⟩
  intro w prev
  rfl

/-- C1 counterexample: a registry whose only endpoint is healthy with the
empty string as address.  That endpoint is the minimum-priority healthy
endpoint, yet the evaluator stores the none sentinel rather than its
address, because the stored-url guard is Python truthiness. -/
theorem C1_counterexample :
    (Endpoint.mk "" 1 true) ∈ [Endpoint.mk "" 1 true] ∧
    (Endpoint.mk "" 1 true).healthy = true ∧
    (∀ e ∈ [Endpoint.mk "" 1 true], e.healthy = true →
      (Endpoint.mk "" 1 true).priority ≤ e.priority) ∧
    (update_overall_health_status false ⟨none, none⟩
      [Endpoint.mk "" 1 true]).selection.url = none ∧
    (update_overall_health_status false ⟨none, none⟩
      [Endpoint.mk "" 1 true]).selection.url ≠ some (Endpoint.mk "" 1 true).url := by
  refine ⟨by decide, rfl, by decide, rfl, by decide⟩

/-- C1 (amended): one evaluator run stores the none sentinel when no
endpoint is healthy, and otherwise stores the address and priority of a
minimum-priority healthy endpoint provided that address is non-empty; a
minimum-priority healthy endpoint whose address is the empty string is
treated as no healthy endpoint and the none sentinel is stored. -/
theorem C1_selection_is_min_priority_healthy (w : Bool) (prev : Selection)
    (registry : List Endpoint) :
    ((∀ e ∈ registry, e.healthy = false) →
      (update_overall_health_status w prev registry).selection = ⟨none, none⟩) ∧
    ((∃ e ∈ registry, e.healthy = true) →
      ∃ f ∈ registry, f.healthy = true ∧
        (∀ e ∈ registry, e.healthy = true → f.priority ≤ e.priority) ∧
        (f.url ≠ "" → (update_overall_health_status w prev registry).selection =
          ⟨some f.url, some f.priority⟩) ∧
        (f.url = "" → (update_overall_health_status w prev registry).selection =
          ⟨none, none⟩)) := by
  rcases compute_highest_priority_healthy_spec registry with ⟨hc, hall⟩ |
    ⟨f, hfmem, hfh, hc, hmin⟩
  · constructor
    · intro _
      unfold update_overall_health_status
      rw [hc]
      simp [truthyOptStr]
    · intro ⟨e, he, hhe⟩
      simp [hall e he] at hhe
  · constructor
    · intro hall
      simp [hall f hfmem] at hfh
    · intro _
      refine ⟨f, hfmem, hfh, hmin, ?_, ?_⟩
      · intro hne
        unfold update_overall_health_status
        rw [hc]
        simp [truthyOptStr, hne]
      · intro heq
        unfold update_overall_health_status
        rw [hc]
        simp [truthyOptStr, heq]

/-- Witness for C1: with a lower-priority unhealthy endpoint and a
higher-priority healthy one, the evaluator stores the healthy one. -/
theorem C1_witness :
    ∃ f ∈ [Endpoint.mk "http://a" 1 false, Endpoint.mk "http://b" 2 true],
      f.healthy = true ∧
      (∀ e ∈ [Endpoint.mk "http://a" 1 false, Endpoint.mk "http://b" 2 true],
        e.healthy = true → f.priority ≤ e.priority) ∧
      (f.url ≠ "" → (update_overall_health_status false ⟨none, none⟩
          [Endpoint.mk "http://a" 1 false, Endpoint.mk "http://b" 2 true]).selection =
        ⟨some f.url, some f.priority⟩) ∧
      (f.url = "" → (update_overall_health_status false ⟨none, none⟩
          [Endpoint.mk "http://a" 1 false, Endpoint.mk "http://b" 2 true]).selection =
        ⟨none, none⟩) :=
  (C1_selection_is_min_priority_healthy false ⟨none, none⟩
    [Endpoint.mk "http://a" 1 false, Endpoint.mk "http://b" 2 true]).2
    ⟨Endpoint.mk "http://b" 2 true, by decide, rfl⟩

/-- C6 counterexample: a 301 response is a non-2xx response, yet the
notifier logs it as a successful delivery, not as a failure — only
statuses 400-599 make raise_for_status raise. -/
theorem C6_counterexample :
    ¬(200 ≤ 301 ∧ 301 < 300) ∧
    send_webhook_notification (some "http://hooks.example/notify") (.response 301) =
      ⟨.sentSuccessfully 301, 1⟩ ∧
    isFailureLog (NotifyLog.sentSuccessfully 301) = false := by
  refine ⟨by decide, by decide, rfl⟩

/-- C6 (amended): every delivery failure the transport raises — a
transport error, an unexpected error, or a 4xx/5xx response (the only
statuses raise_for_status raises on; a 3xx response is logged as a
successful delivery) — is logged as a failure and swallowed inside the
notifier; no exception reaches the evaluator, at most one delivery
attempt is made, and the stored selection never depends on whether a
webhook is configured, so delivery cannot change state. -/
theorem C6_notifier_swallows_failures (webhookUrl : Option String)
    (oc : WebhookOutcome) :
    (send_webhook_notification webhookUrl oc).attempts ≤ 1 ∧
    (isFailureLog (send_webhook_notification webhookUrl oc).log = true ↔
      truthyOptStr webhookUrl = true ∧ ∃ e, webhook_post_attempt oc = .error e) ∧
    (∀ m, webhook_post_attempt (.transportError m) = .error (.requestException m)) ∧
    (∀ s, 400 ≤ s ∧ s < 600 → webhook_post_attempt (.response s) =
      .error (.requestException ("HTTP " ++ toString s))) ∧
    (∀ w prev registry, (update_overall_health_status w prev registry).selection =
      (update_overall_health_status false prev registry).selection) := by
  refine ⟨?_, ?_, fun m => rfl, fun s hs => by simp [webhook_post_attempt, hs], ?_⟩
  · by_cases ht : truthyOptStr webhookUrl = true
    · cases hp : webhook_post_attempt oc with
      | ok s => simp [send_webhook_notification, ht, hp]
      | error e => cases e <;> simp [send_webhook_notification, ht, hp]
    · simp [send_webhook_notification, ht]
  · by_cases ht : truthyOptStr webhookUrl = true
    · cases hp : webhook_post_attempt oc with
      | ok s => simp [send_webhook_notification, ht, hp, isFailureLog]
      | error e =>
          cases e <;> simp [send_webhook_notification, ht, hp, isFailureLog]
    · simp [send_webhook_notification, ht, isFailureLog]
  · intro w prev registry
    unfold update_overall_health_status
    by_cases ht : truthyOptStr (compute_highest_priority_healthy registry).1 = true
    · simp [ht]
    · simp [ht]

/-- Witness for C6 (amended): a concrete transport error is attempted
once and logged as a failure. -/
theorem C6_witness :
    (send_webhook_notification (some "http://hooks.example/notify")
      (.transportError "connection refused")).attempts ≤ 1 ∧
    isFailureLog (send_webhook_notification (some "http://hooks.example/notify")
      (.transportError "connection refused")).log = true := by
  have h := C6_notifier_swallows_failures (some "http://hooks.example/notify")
    (.transportError "connection refused")
  exact ⟨h.1, h.2.1.mpr ⟨by decide, ⟨_, rfl⟩⟩⟩

/-- C7: on every selection state the running system can hold, the status
query returns the success body with the stored address and code 200 when
an address is stored, and the all-endpoints-down body with code 503 when
the none sentinel is stored; the two bodies are distinct constructors. -/
theorem C7_status_query_responses (sel : Selection) (h : ReachableSel sel) :
    (∀ u, sel.url = some u →
      get_healthy_endpoint sel = (StatusResponse.healthyUrl u, 200)) ∧
    (sel.url = none →
      get_healthy_endpoint sel =
        (StatusResponse.down "all_endpoints_down" "No healthy endpoints available.", 503)) ∧
    (∀ u s m, StatusResponse.healthyUrl u ≠ StatusResponse.down s m) := by
  refine ⟨?_, ?_, fun u s m hcon => StatusResponse.noConfusion hcon⟩
  · intro u hu
    have hne : u ≠ "" := by
      rcases h with rfl | ⟨w, prev, registry, rfl⟩
      · simp [initial_healthy_url_info] at hu
      · exact eval_selection_url_ne_empty w prev registry hu
    simp [get_healthy_endpoint, hu, hne]
  · intro hu
    simp [get_healthy_endpoint, hu]

/-- Witness for C7: the startup selection is reachable and the query
answers 503 with the all-down body on it. -/
theorem C7_witness :
    get_healthy_endpoint initial_healthy_url_info =
      (StatusResponse.down "all_endpoints_down" "No healthy endpoints available.", 503) :=
  (C7_status_query_responses initial_healthy_url_info (Or.inl rfl)).2.1 rfl

/-- C9: after every evaluator run the two selection fields are coupled:
the stored priority is the infinity sentinel (modelled as none) exactly
when the stored address is the none sentinel, and whenever an address is
stored it is the address of a healthy registry endpoint whose priority is
the stored priority. -/
theorem C9_selection_fields_coupled (w : Bool) (prev : Selection)
    (registry : List Endpoint) :
    ((update_overall_health_status w prev registry).selection.url = none ↔
      (update_overall_health_status w prev registry).selection.priority = none) ∧
    (∀ u, (update_overall_health_status w prev registry).selection.url = some u →
      ∃ f ∈ registry, f.healthy = true ∧ f.url = u ∧
        (update_overall_health_status w prev registry).selection.priority =
          some f.priority) := by
  rcases compute_highest_priority_healthy_spec registry with ⟨hc, hall⟩ |
    ⟨f, hfmem, hfh, hc, hmin⟩
  · unfold update_overall_health_status
    rw [hc]
    simp [truthyOptStr]
  · unfold update_overall_health_status
    rw [hc]
    by_cases hne : f.url = ""
    · simp [truthyOptStr, hne]
    · constructor
      · simp [truthyOptStr, hne]
      · intro u hu
        simp [truthyOptStr, hne] at hu
        exact ⟨f, hfmem, hfh, hu, by simp [truthyOptStr, hne]⟩

/-- Witness for C9: on a one-endpoint healthy registry the stored address
belongs to that endpoint with its priority. -/
theorem C9_witness :
    ∃ f ∈ [Endpoint.mk "http://a" 1 true], f.healthy = true ∧
      f.url = "http://a" ∧
      (update_overall_health_status false ⟨none, none⟩
        [Endpoint.mk "http://a" 1 true]).selection.priority = some f.priority :=
  (C9_selection_fields_coupled false ⟨none, none⟩ [Endpoint.mk "http://a" 1 true]).2
    "http://a" (by decide)

/-- C10: when the minimum-priority healthy endpoint (every healthy
endpoint of equal priority included) has the empty string as address, the
evaluator stores the none sentinel — firing the lost-all-health
notification exactly when a webhook is configured and the previous
address was not none — and the status query on a stored empty-string
address likewise answers the all-endpoints-down body with 503, both
because of truthiness rather than a none-check. -/
theorem C10_empty_address_treated_as_down (w : Bool) (prev : Selection)
    (registry : List Endpoint) (e : Endpoint) (he : e ∈ registry)
    (hh : e.healthy = true) (_hu : e.url = "")
    (hmin : ∀ e2 ∈ registry, e2.healthy = true →
      e.priority ≤ e2.priority ∧ (e2.priority ≤ e.priority → e2.url = "")) :
    (update_overall_health_status w prev registry).selection = ⟨none, none⟩ ∧
    ((update_overall_health_status w prev registry).notification.isSome = true ↔
      (prev.url ≠ none ∧ w = true)) ∧
    (∀ p, get_healthy_endpoint ⟨some "", p⟩ =
      (StatusResponse.down "all_endpoints_down" "No healthy endpoints available.", 503)) := by
  rcases compute_highest_priority_healthy_spec registry with ⟨hc, hall⟩ |
    ⟨f, hfmem, hfh, hc, hmin2⟩
  · simp [hall e he] at hh
  · have hfe : f.url = "" := (hmin f hfmem hfh).2 (hmin2 e he hh)
    unfold update_overall_health_status
    rw [hc, hfe]
    refine ⟨by simp [truthyOptStr], ?_, fun p => rfl⟩
    simp only [truthyOptStr]
    by_cases hcond : prev.url ≠ none ∧ w = true
    · simp [hcond]
    · simp [hcond]

/-- Witness for C10: one healthy endpoint with the empty address; the
stored selection is the none sentinel and, the previous address being
set and a webhook configured, the lost-all-health notification fires. -/
theorem C10_witness :
    (update_overall_health_status true ⟨some "http://a", some 1⟩
      [Endpoint.mk "" 1 true]).selection = ⟨none, none⟩ ∧
    (update_overall_health_status true ⟨some "http://a", some 1⟩
      [Endpoint.mk "" 1 true]).notification.isSome = true := by
  have h := C10_empty_address_treated_as_down true ⟨some "http://a", some 1⟩
    [Endpoint.mk "" 1 true] (Endpoint.mk "" 1 true) (by decide) rfl rfl (by decide)
  exact ⟨h.1, h.2.1.mpr ⟨by decide, rfl⟩⟩

end Gesundheitswaechter
